import Mathlib

/-!
Verification of the PyStreaming chat/session engine (`src/app.py`).

We shallowly embed the session registry (`socket_to_info`), the presence
tracker (`socket_to_presence`), color resolution (`get_color`, delegating
to the `webcolors` library), the login protocol (`handle_login`) and the
chat-command interpreter (`handle_message`) as pure Lean functions over an
explicit state, and prove or refute the specification claims about them.

Python dictionaries are modelled as insertion-ordered association lists;
handler side effects (`socketio.emit`) are collected into an explicit list
of emitted events; an unhandled Python exception is modelled by the `err`
field of a handler result, with the state mutations performed before the
raise kept (as the real global dictionaries would keep them).
-/

namespace PyStreaming

/-- A JSON-ish value, as used in `socketio.emit` payloads. -/
inductive Val where
  | str : String → Val
  | list : List Val → Val
  | obj : List (String × Val) → Val

/-- One `socketio.emit(event, payload, room=room)` call.  For caller-only
emits the `room` is the caller's socket id (as in flask-socketio). -/
structure Emit where
  event : String
  payload : Val
  room : String

/-- Payload of the common shape `{'msg': text}`. -/
def msgVal (text : String) : Val := .obj [("msg", .str text)]

/-- An unhandled Python exception escaping a handler. -/
inductive PyErr where
  | keyError : String → PyErr
  | indexError : PyErr
  | valueError : PyErr
deriving DecidableEq, Repr

/-- Python whitespace for `str.strip()` (ASCII part; all inputs in this
development are ASCII). -/
def isSpaceChar (c : Char) : Bool :=
  c == ' ' || c == '\t' || c == '\n' || c == '\r' || c == '\x0b' || c == '\x0c'

/-- Python `s.strip()`, structurally over the character list. -/
def pyStrip (s : String) : String :=
  String.mk (((s.data.dropWhile isSpaceChar).reverse.dropWhile isSpaceChar).reverse)

/-- Python `s.lower()` (ASCII case mapping; all inputs in this
development are ASCII). -/
def pyLower (s : String) : String :=
  String.mk (s.data.map Char.toLower)

/-- The `SocketInfo` class of `app.py` (one authenticated session). -/
structure SocketInfo where
  sid : String
  ip : String
  streamer : String
  username : String
  admin : Bool
  moderator : Bool
  muted : Bool
  color : Nat
deriving DecidableEq, Repr

/-- The `PresenceInfo` class of `app.py` (`timestamp` is set to `now()`
at construction time; we pass that clock value in explicitly). -/
structure PresenceInfo where
  sid : String
  streamer : String
  timestamp : Int
deriving DecidableEq, Repr

/-- One row of the `streamersettings` table (`data.py`): `username` and
`key` are NOT NULL, `description` and `streampass` are nullable. -/
structure Row where
  username : String
  key : String
  description : Option String
  streampass : Option String
deriving DecidableEq, Repr

/-- The mutable state of the engine: the two global dictionaries of
`app.py` plus the external `streamersettings` store. -/
structure State where
  info : List (String × SocketInfo)
  presence : List (String × PresenceInfo)
  db : List Row
deriving DecidableEq, Repr

/-- Result of running one socket event handler: the state after the
handler returned (or raised), the events it emitted, and the unhandled
exception if one escaped. -/
structure HResult where
  state : State
  emits : List Emit
  err : Option PyErr

/-- Python `d[k] = v` on an insertion-ordered dict: replace in place if
the key is present, else append. -/
def dictSet (k : String) (v : β) : List (String × β) → List (String × β)
  | [] => [(k, v)]
  | (k', v') :: rest => if k' == k then (k, v) :: rest else (k', v') :: dictSet k v rest

/-- Python `del d[k]` (keys are unique in a dict, so removing the first
occurrence is exact). -/
def dictDel (k : String) : List (String × β) → List (String × β)
  | [] => []
  | (k', v') :: rest => if k' == k then rest else (k', v') :: dictDel k rest

/-- In-place mutation of the object stored at key `k`
(Python `d[k].field = x`). -/
def updKey (k : String) (f : SocketInfo → SocketInfo) :
    List (String × SocketInfo) → List (String × SocketInfo)
  | [] => []
  | (k', v) :: rest => if k' == k then (k', f v) :: rest else (k', v) :: updKey k f rest

/-- In-place mutation of the first dict value satisfying `p`, as done by
the `for sinfo in socket_to_info.values(): ... break` moderation loops. -/
def updFirst (p : SocketInfo → Bool) (f : SocketInfo → SocketInfo) :
    List (String × SocketInfo) → List (String × SocketInfo)
  | [] => []
  | (k, v) :: rest => if p v then (k, f v) :: rest else (k, v) :: updFirst p f rest

/-- The `htmlcolor` property of `SocketInfo`: `hex(color)[2:]` padded on
the left with zeros to six digits, with a leading `#`. -/
def htmlcolor (color : Nat) : String :=
  let s := String.mk (Nat.toDigits 16 color)
  let s := if s.length < 6 then String.mk (List.replicate (6 - s.length) '0') ++ s else s
  "#" ++ s

/-- The `get_type` function of `app.py`. -/
def get_type (user : SocketInfo) : String :=
  if user.admin then "admin"
  else if user.moderator then "moderator"
  else "normal"

/-- Projection of one session for roster payloads, mirroring the dict
built by `users_in_room`. -/
structure UserEntry where
  username : String
  type : String
  color : String
deriving DecidableEq, Repr

/-- The `users_in_room` function of `app.py`: all sessions whose
`streamer` field equals the room, in dict iteration order. -/
def users_in_room (info : List (String × SocketInfo)) (streamer : String) : List UserEntry :=
  ((info.map Prod.snd).filter (fun i => i.streamer == streamer)).map
    (fun i => ⟨i.username, get_type i, htmlcolor i.color⟩)

def userVal (u : UserEntry) : Val :=
  .obj [("username", .str u.username), ("type", .str u.type), ("color", .str u.color)]

def usersVal (l : List UserEntry) : Val := .list (l.map userVal)

/-- The `stream_count` function of `app.py`: presences in the room whose
timestamp is at least `now() - 30`. -/
def stream_count (nowT : Int) (streamer : String)
    (presence : List (String × PresenceInfo)) : Nat :=
  let oldest := nowT - 30
  ((presence.map Prod.snd).filter
    (fun x => x.streamer == streamer && oldest ≤ x.timestamp)).length

/-! ## Color resolution (`get_color` and its `webcolors` dependency) -/

/-- The CSS3 named-color table of the `webcolors` library
(`CSS3_NAMES_TO_HEX`), name to hex string. -/
def CSS3_NAMES_TO_HEX : List (String × String) :=
  [("aliceblue", "#f0f8ff"), ("antiquewhite", "#faebd7"), ("aqua", "#00ffff"),
   ("aquamarine", "#7fffd4"), ("azure", "#f0ffff"), ("beige", "#f5f5dc"),
   ("bisque", "#ffe4c4"), ("black", "#000000"), ("blanchedalmond", "#ffebcd"),
   ("blue", "#0000ff"), ("blueviolet", "#8a2be2"), ("brown", "#a52a2a"),
   ("burlywood", "#deb887"), ("cadetblue", "#5f9ea0"), ("chartreuse", "#7fff00"),
   ("chocolate", "#d2691e"), ("coral", "#ff7f50"), ("cornflowerblue", "#6495ed"),
   ("cornsilk", "#fff8dc"), ("crimson", "#dc143c"), ("cyan", "#00ffff"),
   ("darkblue", "#00008b"), ("darkcyan", "#008b8b"), ("darkgoldenrod", "#b8860b"),
   ("darkgray", "#a9a9a9"), ("darkgrey", "#a9a9a9"), ("darkgreen", "#006400"),
   ("darkkhaki", "#bdb76b"), ("darkmagenta", "#8b008b"), ("darkolivegreen", "#556b2f"),
   ("darkorange", "#ff8c00"), ("darkorchid", "#9932cc"), ("darkred", "#8b0000"),
   ("darksalmon", "#e9967a"), ("darkseagreen", "#8fbc8f"), ("darkslateblue", "#483d8b"),
   ("darkslategray", "#2f4f4f"), ("darkslategrey", "#2f4f4f"), ("darkturquoise", "#00ced1"),
   ("darkviolet", "#9400d3"), ("deeppink", "#ff1493"), ("deepskyblue", "#00bfff"),
   ("dimgray", "#696969"), ("dimgrey", "#696969"), ("dodgerblue", "#1e90ff"),
   ("firebrick", "#b22222"), ("floralwhite", "#fffaf0"), ("forestgreen", "#228b22"),
   ("fuchsia", "#ff00ff"), ("gainsboro", "#dcdcdc"), ("ghostwhite", "#f8f8ff"),
   ("gold", "#ffd700"), ("goldenrod", "#daa520"), ("gray", "#808080"),
   ("grey", "#808080"), ("green", "#008000"), ("greenyellow", "#adff2f"),
   ("honeydew", "#f0fff0"), ("hotpink", "#ff69b4"), ("indianred", "#cd5c5c"),
   ("indigo", "#4b0082"), ("ivory", "#fffff0"), ("khaki", "#f0e68c"),
   ("lavender", "#e6e6fa"), ("lavenderblush", "#fff0f5"), ("lawngreen", "#7cfc00"),
   ("lemonchiffon", "#fffacd"), ("lightblue", "#add8e6"), ("lightcoral", "#f08080"),
   ("lightcyan", "#e0ffff"), ("lightgoldenrodyellow", "#fafad2"), ("lightgray", "#d3d3d3"),
   ("lightgrey", "#d3d3d3"), ("lightgreen", "#90ee90"), ("lightpink", "#ffb6c1"),
   ("lightsalmon", "#ffa07a"), ("lightseagreen", "#20b2aa"), ("lightskyblue", "#87cefa"),
   ("lightslategray", "#778899"), ("lightslategrey", "#778899"), ("lightsteelblue", "#b0c4de"),
   ("lightyellow", "#ffffe0"), ("lime", "#00ff00"), ("limegreen", "#32cd32"),
   ("linen", "#faf0e6"), ("magenta", "#ff00ff"), ("maroon", "#800000"),
   ("mediumaquamarine", "#66cdaa"), ("mediumblue", "#0000cd"), ("mediumorchid", "#ba55d3"),
   ("mediumpurple", "#9370db"), ("mediumseagreen", "#3cb371"), ("mediumslateblue", "#7b68ee"),
   ("mediumspringgreen", "#00fa9a"), ("mediumturquoise", "#48d1cc"), ("mediumvioletred", "#c71585"),
   ("midnightblue", "#191970"), ("mintcream", "#f5fffa"), ("mistyrose", "#ffe4e1"),
   ("moccasin", "#ffe4b5"), ("navajowhite", "#ffdead"), ("navy", "#000080"),
   ("oldlace", "#fdf5e6"), ("olive", "#808000"), ("olivedrab", "#6b8e23"),
   ("orange", "#ffa500"), ("orangered", "#ff4500"), ("orchid", "#da70d6"),
   ("palegoldenrod", "#eee8aa"), ("palegreen", "#98fb98"), ("paleturquoise", "#afeeee"),
   ("palevioletred", "#db7093"), ("papayawhip", "#ffefd5"), ("peachpuff", "#ffdab9"),
   ("peru", "#cd853f"), ("pink", "#ffc0cb"), ("plum", "#dda0dd"),
   ("powderblue", "#b0e0e6"), ("purple", "#800080"), ("red", "#ff0000"),
   ("rosybrown", "#bc8f8f"), ("royalblue", "#4169e1"), ("saddlebrown", "#8b4513"),
   ("salmon", "#fa8072"), ("sandybrown", "#f4a460"), ("seagreen", "#2e8b57"),
   ("seashell", "#fff5ee"), ("sienna", "#a0522d"), ("silver", "#c0c0c0"),
   ("skyblue", "#87ceeb"), ("slateblue", "#6a5acd"), ("slategray", "#708090"),
   ("slategrey", "#708090"), ("snow", "#fffafa"), ("springgreen", "#00ff7f"),
   ("steelblue", "#4682b4"), ("tan", "#d2b48c"), ("teal", "#008080"),
   ("thistle", "#d8bfd8"), ("tomato", "#ff6347"), ("turquoise", "#40e0d0"),
   ("violet", "#ee82ee"), ("wheat", "#f5deb3"), ("white", "#ffffff"),
   ("whitesmoke", "#f5f5f5"), ("yellow", "#ffff00"), ("yellowgreen", "#9acd32")]

/-- The `webcolors.name_to_hex(name, spec=CSS3)` call; `none` models the
`ValueError` raised for an unknown name. -/
def name_to_hex (name : String) : Option String :=
  CSS3_NAMES_TO_HEX.lookup (pyLower name)

/-- True for an ASCII hex digit, matching the character class of the
`webcolors` hex regular expression. -/
def isHexChar (c : Char) : Bool :=
  (48 ≤ c.toNat && c.toNat ≤ 57) || (97 ≤ c.toNat && c.toNat ≤ 102) ||
    (65 ≤ c.toNat && c.toNat ≤ 70)

/-- The `webcolors.normalize_hex` call: the input must match
`#([0-9a-fA-F]{3}|[0-9a-fA-F]{6})` (a leading `#` is mandatory); three
digit forms are expanded by doubling each digit; the result is lowercased
with a leading `#`.  `none` models the `ValueError` for any other input. -/
def normalize_hex (hexValue : String) : Option String :=
  match hexValue.data with
  | '#' :: ds =>
    if (ds.length == 3 || ds.length == 6) && ds.all isHexChar then
      let ds := if ds.length == 3 then ds.flatMap (fun c => [c, c]) else ds
      some (String.mk ('#' :: ds.map Char.toLower))
    else none
  | _ => none

/-- Value of one hex digit. -/
def hexVal (c : Char) : Nat :=
  if 97 ≤ c.toNat then c.toNat - 87
  else if 65 ≤ c.toNat then c.toNat - 55
  else c.toNat - 48

/-- Hex digit run with Python's underscore rule: underscores may appear
only singly and only between two digits. -/
def parseHexDigits (cs : List Char) : Option Nat :=
  go cs 0 false
where
  go : List Char → Nat → Bool → Option Nat
  | [], acc, lastWasDigit => if lastWasDigit then some acc else none
  | c :: rest, acc, lastWasDigit =>
    if isHexChar c then go rest (16 * acc + hexVal c) true
    else if c == '_' && lastWasDigit && !rest.isEmpty then go rest acc false
    else none

/-- Model of Python `int(s, 16)`: surrounding whitespace is ignored, an
optional sign and an optional `0x`/`0X` prefix are accepted, digits may be
grouped with single underscores; `none` models the `ValueError` raised
otherwise. -/
def pyIntHex (s : String) : Option Int :=
  let cs := (pyStrip s).data
  let (neg, cs) :=
    match cs with
    | '-' :: rest => (true, rest)
    | '+' :: rest => (false, rest)
    | _ => (false, cs)
  let cs :=
    match cs with
    | '0' :: 'x' :: rest => rest
    | '0' :: 'X' :: rest => rest
    | _ => cs
  match parseHexDigits cs with
  | none => none
  | some n => some (if neg then -(n : Int) else (n : Int))

/-- The `get_color` function of `app.py`.  `randomChoice` stands for the
name picked by `random.choice` when the input is the literal `random`;
the `ValueError` that `int(color[1:], 16)` can raise on a 7-character
non-hex string starting with `#` escapes the function uncaught. -/
def get_color (randomChoice : String) (color0 : String) : Except PyErr (Option Nat) :=
  let color := pyLower (pyStrip color0)
  let color := if color == "random" then randomChoice else color
  let color := match name_to_hex color with | some h => h | none => color
  let color := match normalize_hex color with | some h => h | none => color
  if color.length != 7 || color.data.head? != some '#' then
    .ok none
  else
    match pyIntHex (String.mk color.data.tail) with
    | none => .error .valueError
    | some intval =>
      if intval < 0 || intval > 0xFFFFFF then .ok none
      else .ok (some intval.toNat)

/-! ## Socket event handlers -/

/-- SQL string equality under the MySQL default case-insensitive
collation (the schema of `data.py` uses `utf8mb4` with its default
general-ci collation), as used by every `WHERE username = :name`. -/
def sqlEq (a b : String) : Bool := pyLower a == pyLower b

/-- Python rendering of a nullable DB field inside an f-string: NULL is
printed as None. -/
def pyStrOpt : Option String → String
  | none => "None"
  | some s => s

/-- Python `message.split(' ', 1)`, applied when `' ' in message`:
everything before the first space, and everything after it. -/
def splitFirstSpace (s : String) : String × String :=
  let a := s.data.takeWhile (fun c => !(c == ' '))
  let b := s.data.dropWhile (fun c => !(c == ' '))
  (String.mk a, String.mk (b.drop 1))

/-- The identity-bearing chat payload
`{'username': ..., 'type': ..., 'color': ..., 'message': ...}`. -/
def chatVal (i : SocketInfo) (text : String) : Val :=
  .obj [("username", .str i.username), ("type", .str (get_type i)),
        ("color", .str (htmlcolor i.color)), ("message", .str text)]

/-- The generic response for an unknown (or insufficiently privileged)
command. -/
def unrecognizedCmd (st : State) (command sid : String) : HResult :=
  ⟨st, [⟨"server", msgVal ("Unrecognized command '" ++ command ++ "', use '/help' for info."),
    sid⟩], none⟩

/-- The `/say` branch of `handle_message` (`app.py` lines 624-642). -/
def cmd_say (emotes : String → String) (sid : String) (me : SocketInfo)
    (message : String) (st : State) : HResult :=
  if me.muted then ⟨st, [⟨"server", msgVal "You are muted!", sid⟩], none⟩
  else ⟨st, [⟨"message received", chatVal me (emotes message), me.streamer⟩], none⟩

/-- The `/me`, `/action`, `/describe` branch (`app.py` lines 643-661). -/
def cmd_action (emotes : String → String) (sid : String) (me : SocketInfo)
    (message : String) (st : State) : HResult :=
  if me.muted then ⟨st, [⟨"server", msgVal "You are muted!", sid⟩], none⟩
  else ⟨st, [⟨"action received", chatVal me (emotes message), me.streamer⟩], none⟩

/-- The `/color`, `/setcolor` branch (`app.py` lines 662-695). -/
def cmd_color (randomChoice : String) (sid : String) (me : SocketInfo)
    (message : String) (st : State) : HResult :=
  if me.muted then ⟨st, [⟨"server", msgVal "You are muted!", sid⟩], none⟩
  else
    match get_color randomChoice (pyLower (pyStrip message)) with
    | .error e => ⟨st, [], some e⟩
    | .ok copt =>
      match copt with
      | none =>
        ⟨st, [⟨"server", msgVal ("Invalid color " ++ message ++
          " specified, try a color name, an HTML color like #ff00ff or \"random\" for a random color."),
          sid⟩], none⟩
      | some c =>
        if c == 0 then
          -- Python tests `if not color:`, which is also true for the int 0
          ⟨st, [⟨"server", msgVal ("Invalid color " ++ message ++
            " specified, try a color name, an HTML color like #ff00ff or \"random\" for a random color."),
            sid⟩], none⟩
        else
          let me' := { me with color := c }
          ⟨{ st with info := updKey sid (fun x => { x with color := c }) st.info },
           [⟨"action received", chatVal me' "changed their color!", me.streamer⟩,
            ⟨"return color", .obj [("color", .str (htmlcolor me'.color))], sid⟩], none⟩

/-- The `/name`, `/nick` branch (`app.py` lines 696-742). -/
def cmd_name (sid : String) (me : SocketInfo) (message : String) (st : State) : HResult :=
  if me.muted then ⟨st, [⟨"server", msgVal "You are muted!", sid⟩], none⟩
  else
    if (pyStrip message).length ≥ 30 then
      ⟨st, [⟨"server", msgVal "Too long of a name specified, try a different name.", sid⟩], none⟩
    else if (users_in_room st.info me.streamer).any
        (fun u => pyLower u.username == pyLower (pyStrip message)) then
      ⟨st, [⟨"server", msgVal "Name has already been taken, try a different name.", sid⟩], none⟩
    else if pyStrip message == "" then
      ⟨st, [⟨"server", msgVal "Invalid name specified, try a different name.", sid⟩], none⟩
    else
      let old := me.username
      let me' := { me with username := pyStrip message }
      let st' := { st with info := updKey sid (fun x => { x with username := pyStrip message }) st.info }
      ⟨st', [⟨"rename", .obj [("newname", .str me'.username), ("oldname", .str old),
        ("type", .str (get_type me')), ("color", .str (htmlcolor me'.color)),
        ("users", usersVal (users_in_room st'.info me.streamer))], me.streamer⟩], none⟩

/-- The `/help` branch (`app.py` lines 743-767). -/
def cmd_help (sid : String) (me : SocketInfo) (st : State) : HResult :=
  let messages := ["The following commands are recognized:",
    "/help - show this message",
    "/users - show the currently chatting users",
    "/me - perform an action",
    "/color - set the color of your name in chat",
    "/name - change your name to a new one"]
  let messages := if me.admin then messages ++
    ["/settings - display all stream settings",
     "/description <text> - set the stream description",
     "/password [<text>] - set or unset the stream password",
     "/mod <user> - grant moderator privileges to user",
     "/demod <user> - revoke moderator privileges to user"] else messages
  let messages := if me.admin || me.moderator then messages ++
    ["/mute <user> - mute user",
     "/unmute <user> - unmute user"] else messages
  ⟨st, messages.map (fun m => ⟨"server", msgVal m, sid⟩), none⟩

/-- The `/users` branch (`app.py` lines 768-773). -/
def cmd_users (sid : String) (me : SocketInfo) (st : State) : HResult :=
  ⟨st, [⟨"userlist", .obj [("users", usersVal (users_in_room st.info me.streamer))], sid⟩],
    none⟩

/-- The `/settings` branch (`app.py` lines 774-812). -/
def cmd_settings (sid : String) (me : SocketInfo) (command : String) (st : State) : HResult :=
  if !me.admin then unrecognizedCmd st command sid
  else
    match st.db.filter (fun r => sqlEq r.username me.streamer) with
    | [result] =>
      let passEmit : Emit :=
        match result.streampass with
        | some p =>
          if p == "" then ⟨"server", msgVal "No stream password", sid⟩
          else ⟨"server", msgVal ("Stream password: " ++ p), sid⟩
        | none => ⟨"server", msgVal "No stream password", sid⟩
      ⟨st, [⟨"server", msgVal ("Description: " ++ pyStrOpt result.description), sid⟩,
        passEmit], none⟩
    | _ => ⟨st, [⟨"server", msgVal "Error looking up settings!", sid⟩], none⟩

/-- The `/mute`, `/quiet` branch (`app.py` lines 813-851). -/
def cmd_mute (sid : String) (me : SocketInfo) (command message : String)
    (st : State) : HResult :=
  if !(me.admin || me.moderator) then unrecognizedCmd st command sid
  else
    let target := pyLower (pyStrip message)
    let p := fun (s : SocketInfo) => pyLower s.username == target && s.streamer == me.streamer
    match (st.info.map Prod.snd).find? p with
    | some sinfo =>
      let changed := sinfo.muted == false
      let st' := { st with info := updFirst p (fun s => { s with muted := true }) st.info }
      if changed then
        ⟨st', [⟨"server", msgVal ("User '" ++ target ++ "' has been muted."), sid⟩,
          ⟨"server", msgVal "You have been muted.", sinfo.sid⟩], none⟩
      else
        ⟨st', [⟨"server", msgVal ("User '" ++ target ++ "' is already muted."), sid⟩], none⟩
    | none => ⟨st, [⟨"server", msgVal ("Unrecognized user '" ++ target ++ "'"), sid⟩], none⟩

/-- The `/unmute`, `/unquiet` branch (`app.py` lines 852-890). -/
def cmd_unmute (sid : String) (me : SocketInfo) (command message : String)
    (st : State) : HResult :=
  if !(me.admin || me.moderator) then unrecognizedCmd st command sid
  else
    let target := pyLower (pyStrip message)
    let p := fun (s : SocketInfo) => pyLower s.username == target && s.streamer == me.streamer
    match (st.info.map Prod.snd).find? p with
    | some sinfo =>
      let changed := sinfo.muted == true
      let st' := { st with info := updFirst p (fun s => { s with muted := false }) st.info }
      if changed then
        ⟨st', [⟨"server", msgVal ("User '" ++ target ++ "' has been unmuted."), sid⟩,
          ⟨"server", msgVal "You have been unmuted.", sinfo.sid⟩], none⟩
      else
        ⟨st', [⟨"server", msgVal ("User '" ++ target ++ "' is not muted."), sid⟩], none⟩
    | none => ⟨st, [⟨"server", msgVal ("Unrecognized user '" ++ target ++ "'"), sid⟩], none⟩

/-- The `/mod` branch (`app.py` lines 891-929). -/
def cmd_mod (sid : String) (me : SocketInfo) (command message : String)
    (st : State) : HResult :=
  if !me.admin then unrecognizedCmd st command sid
  else
    let target := pyLower (pyStrip message)
    let p := fun (s : SocketInfo) => pyLower s.username == target && s.streamer == me.streamer
    match (st.info.map Prod.snd).find? p with
    | some sinfo =>
      let changed := sinfo.moderator == false
      let st' := { st with info := updFirst p (fun s => { s with moderator := true }) st.info }
      if changed then
        ⟨st', [⟨"server", msgVal ("User '" ++ target ++ "' has been promoted to moderator."), sid⟩,
          ⟨"server", msgVal "You have been promoted to moderator.", sinfo.sid⟩], none⟩
      else
        ⟨st', [⟨"server", msgVal ("User '" ++ target ++ "' is already a moderator."), sid⟩], none⟩
    | none => ⟨st, [⟨"server", msgVal ("Unrecognized user '" ++ target ++ "'"), sid⟩], none⟩

/-- The `/demod`, `/unmod` branch (`app.py` lines 930-968). -/
def cmd_demod (sid : String) (me : SocketInfo) (command message : String)
    (st : State) : HResult :=
  if !me.admin then unrecognizedCmd st command sid
  else
    let target := pyLower (pyStrip message)
    let p := fun (s : SocketInfo) => pyLower s.username == target && s.streamer == me.streamer
    match (st.info.map Prod.snd).find? p with
    | some sinfo =>
      let changed := sinfo.moderator == true
      let st' := { st with info := updFirst p (fun s => { s with moderator := false }) st.info }
      if changed then
        ⟨st', [⟨"server", msgVal ("User '" ++ target ++ "' has been demoted from moderator."), sid⟩,
          ⟨"server", msgVal "You have been demoted from moderator.", sinfo.sid⟩], none⟩
      else
        ⟨st', [⟨"server", msgVal ("User '" ++ target ++ "' is not a moderator."), sid⟩], none⟩
    | none => ⟨st, [⟨"server", msgVal ("Unrecognized user '" ++ target ++ "'"), sid⟩], none⟩

/-- The `/desc`, `/description` branch (`app.py` lines 969-989). -/
def cmd_desc (emotes : String → String) (sid : String) (me : SocketInfo)
    (command message : String) (st : State) : HResult :=
  if !me.admin then unrecognizedCmd st command sid
  else
    let description := emotes (pyStrip message)
    ⟨{ st with db := st.db.map (fun r =>
        if sqlEq r.username me.streamer then { r with description := some description } else r) },
     [⟨"server", msgVal "Stream description updated!", sid⟩], none⟩

/-- The `/password` branch (`app.py` lines 990-1041). -/
def cmd_password (sid : String) (me : SocketInfo) (command message : String)
    (st : State) : HResult :=
  if !me.admin then unrecognizedCmd st command sid
  else
    if message != "" then
      ⟨{ st with db := st.db.map (fun r =>
          if sqlEq r.username me.streamer then { r with streampass := some message } else r) },
       [⟨"server", msgVal ("Stream password set to \"" ++ message ++ "\"!"), sid⟩,
        ⟨"password set", .obj [("password", .str message)], sid⟩,
        ⟨"password activated", .obj [("username", .str me.streamer)], me.streamer⟩], none⟩
    else
      ⟨{ st with db := st.db.map (fun r =>
          if sqlEq r.username me.streamer then { r with streampass := none } else r) },
       [⟨"server", msgVal "Stream password removed!", sid⟩,
        ⟨"password deactivated", .obj [("username", .str me.streamer),
          ("msg", .str "Stream password has been removed.")], me.streamer⟩], none⟩

/-- The command part of `handle_message` (`app.py` lines 624-1048): one
branch per command token, acting for the session `me` stored at `sid`
(the source re-reads `socket_to_info[request.sid]` at each use; nothing
mutates that entry in between, and the two self-mutating branches use
the explicitly updated copy where the source re-reads). -/
def dispatch_command (emotes : String → String) (randomChoice : String) (sid : String)
    (me : SocketInfo) (command message : String) (st : State) : HResult :=
  if ["/say"].contains command then cmd_say emotes sid me message st
  else if ["/me", "/action", "/describe"].contains command then
    cmd_action emotes sid me message st
  else if ["/color", "/setcolor"].contains command then
    cmd_color randomChoice sid me message st
  else if ["/name", "/nick"].contains command then cmd_name sid me message st
  else if ["/help"].contains command then cmd_help sid me st
  else if ["/users"].contains command then cmd_users sid me st
  else if ["/settings"].contains command then cmd_settings sid me command st
  else if ["/mute", "/quiet"].contains command then cmd_mute sid me command message st
  else if ["/unmute", "/unquiet"].contains command then cmd_unmute sid me command message st
  else if ["/mod"].contains command then cmd_mod sid me command message st
  else if ["/demod", "/unmod"].contains command then cmd_demod sid me command message st
  else if ["/desc", "/description"].contains command then
    cmd_desc emotes sid me command message st
  else if ["/password"].contains command then cmd_password sid me command message st
  else unrecognizedCmd st command sid

/-- The `message` socket event handler of `app.py`. -/
def handle_message (emotes : String → String) (randomChoice : String) (nowT : Int)
    (sid : String) (json : List (String × String)) (st : State) : HResult :=
  match json.lookup "message" with
  | none => ⟨st, [⟨"error", msgVal "Message mssing from JSON?", sid⟩], none⟩
  | some rawMsg =>
    if rawMsg.length == 0 then
      ⟨st, [⟨"warning", msgVal "Message cannot be blank", sid⟩], none⟩
    else
      match st.info.lookup sid with
      | none => ⟨st, [⟨"error", msgVal "User is not authenticated?", sid⟩], none⟩
      | some me =>
        let st := { st with presence := dictSet sid ⟨sid, me.streamer, nowT⟩ st.presence }
        let message := pyStrip rawMsg
        match message.data.head? with
        | none => ⟨st, [], some .indexError⟩   -- `message[0]` on the empty string
        | some c0 =>
          if c0 == '/' then
            let (command, message) :=
              if message.data.contains ' ' then splitFirstSpace message else (message, "")
            dispatch_command emotes randomChoice sid me command message st
          else
            if me.muted then ⟨st, [⟨"server", msgVal "You are muted!", sid⟩], none⟩
            else ⟨st, [⟨"message received", chatVal me (emotes message), me.streamer⟩], none⟩

/-- The tail of `handle_login` after the admin check (`app.py` lines
576-591): the final room-wide duplicate scan, the insertion and the
success emits.  `uname` is `json['username']` (the raw claimed
spelling), which is what those lines read. -/
def login_finish (sid ip streamer uname : String) (admin : Bool) (color : Nat)
    (st : State) : HResult :=
  if (st.info.map Prod.snd).any
      (fun ex => ex.streamer == streamer && pyLower ex.username == pyLower uname) then
    ⟨st, [⟨"error", msgVal "Username is taken", sid⟩], none⟩
  else
    let newInfo : SocketInfo := ⟨sid, ip, streamer, uname, admin, false, false, color⟩
    let st := { st with info := dictSet sid newInfo st.info }
    let base : List Emit := [⟨"login success", .obj [("username", .str uname)], sid⟩,
      ⟨"connected", .obj [("username", .str uname), ("type", .str (get_type newInfo)),
        ("color", .str (htmlcolor newInfo.color)),
        ("users", usersVal (users_in_room st.info streamer))], streamer⟩]
    ⟨st, if admin then base ++ [⟨"server", msgVal "You have admin rights.", sid⟩] else base, none⟩

/-- The `login` socket event handler of `app.py`. -/
def handle_login (nowT : Int) (randomChoice : String) (sid ip : String)
    (json : List (String × String)) (st : State) : HResult :=
  if (st.info.lookup sid).isSome then
    ⟨st, [⟨"error", msgVal "SID already taken?", sid⟩], none⟩
  else
    match json.lookup "username" with
    | none => ⟨st, [⟨"error", msgVal "Username mssing from JSON?", sid⟩], none⟩
    | some uname =>
      match json.lookup "streamer" with
      | none => ⟨st, [⟨"error", msgVal "Streamer mssing from JSON?", sid⟩], none⟩
      | some streamerRaw =>
        if uname.length == 0 then
          ⟨st, [⟨"error", msgVal "Username cannot be blank", sid⟩], none⟩
        else if uname.length ≥ 30 then
          ⟨st, [⟨"error", msgVal "Username cannot be that long", sid⟩], none⟩
        else
          let streamer := pyLower streamerRaw
          if (users_in_room st.info streamer).any
              (fun u => pyLower u.username == pyLower uname) then
            ⟨st, [⟨"error", msgVal "Username is already taken", sid⟩], none⟩
          else
            match json.lookup "color" with
            | none => ⟨st, [], some (.keyError "color")⟩
            | some colorStr =>
              match get_color randomChoice (pyLower (pyStrip colorStr)) with
              | .error e => ⟨st, [], some e⟩
              | .ok copt =>
                let color := copt.getD 0    -- `get_color(...) or 0`
                let key := json.lookup "key"
                let st := { st with presence := dictSet sid ⟨sid, streamer, nowT⟩ st.presence }
                match st.db.filter (fun r => sqlEq r.username streamer) with
                | [result] =>
                  if pyLower uname == streamer then
                    match key with
                    | none =>
                      ⟨st, [⟨"login key required",
                        .obj [("username", .str result.username)], sid⟩], none⟩
                    | some k =>
                      if k != result.key then
                        ⟨st, [⟨"error", msgVal "Invalid password!", sid⟩], none⟩
                      else
                        -- the source sets `username = result['username']` here, but
                        -- every later line reads `json['username']` instead, so the
                        -- canonical casing is a dead store; `login_finish` therefore
                        -- receives the raw `uname`.
                        login_finish sid ip streamer uname true color st
                  else login_finish sid ip streamer uname false color st
                | _ => ⟨st, [⟨"error", msgVal "Streamer does not exist", sid⟩], none⟩

/-- The `presence` socket event handler of `app.py`. -/
def handle_presence (nowT : Int) (sid : String) (json : List (String × String))
    (st : State) : HResult :=
  match json.lookup "streamer" with
  | none => ⟨st, [], none⟩
  | some s =>
    ⟨{ st with presence := dictSet sid ⟨sid, pyLower s, nowT⟩ st.presence }, [], none⟩

/-- The `connect` socket event handler of `app.py` (defensively drops a
stale registry entry). -/
def handle_connect (sid : String) (st : State) : HResult :=
  ⟨{ st with info := dictDel sid st.info }, [], none⟩

/-- The `disconnect` socket event handler of `app.py`. -/
def handle_disconnect (sid : String) (st : State) : HResult :=
  let (st1, emits) :=
    match st.info.lookup sid with
    | some inf =>
      let st' := { st with info := dictDel sid st.info }
      (st', [(⟨"disconnected", .obj [("username", .str inf.username),
        ("type", .str (get_type inf)), ("color", .str (htmlcolor inf.color)),
        ("users", usersVal (users_in_room st'.info inf.streamer))], inf.streamer⟩ : Emit)])
    | none => (st, ([] : List Emit))
  ⟨{ st1 with presence := dictDel sid st1.presence }, emits, none⟩

/-- The `get color` socket event handler of `app.py`. -/
def return_color (sid : String) (st : State) : HResult :=
  match st.info.lookup sid with
  | none => ⟨st, [⟨"error", msgVal "User is not authenticated?", sid⟩], none⟩
  | some me =>
    ⟨st, [⟨"return color", .obj [("color", .str (htmlcolor me.color))], sid⟩], none⟩

/-- The `drawing` socket event handler of `app.py`. -/
def handle_drawing (nowT : Int) (sid : String) (json : List (String × String))
    (st : State) : HResult :=
  match json.lookup "src" with
  | none => ⟨st, [⟨"error", msgVal "Image mssing from JSON?", sid⟩], none⟩
  | some srcRaw =>
    match st.info.lookup sid with
    | none => ⟨st, [⟨"error", msgVal "User is not authenticated?", sid⟩], none⟩
    | some me =>
      let st := { st with presence := dictSet sid ⟨sid, me.streamer, nowT⟩ st.presence }
      let src := pyStrip srcRaw
      if me.muted then ⟨st, [⟨"server", msgVal "You are muted!", sid⟩], none⟩
      else ⟨st, [⟨"drawing received", .obj [("username", .str me.username),
        ("type", .str (get_type me)), ("color", .str (htmlcolor me.color)),
        ("src", .str src)], me.streamer⟩], none⟩

/-! ## Events and reachability -/

/-- One inbound socket event, with the ambient data each handler reads
(the clock, the caller's socket id and address, the external emote
transform and the random-color draw). -/
inductive Event where
  | connectEv (sid : String)
  | disconnectEv (sid : String)
  | presenceEv (nowT : Int) (sid : String) (json : List (String × String))
  | loginEv (nowT : Int) (randomChoice sid ip : String) (json : List (String × String))
  | messageEv (emotes : String → String) (randomChoice : String) (nowT : Int)
      (sid : String) (json : List (String × String))
  | getColorEv (sid : String)
  | drawingEv (nowT : Int) (sid : String) (json : List (String × String))

/-- Run one event through its handler. -/
def runEvent : Event → State → HResult
  | .connectEv sid, st => handle_connect sid st
  | .disconnectEv sid, st => handle_disconnect sid st
  | .presenceEv nowT sid json, st => handle_presence nowT sid json st
  | .loginEv nowT rc sid ip json, st => handle_login nowT rc sid ip json st
  | .messageEv em rc nowT sid json, st => handle_message em rc nowT sid json st
  | .getColorEv sid, st => return_color sid st
  | .drawingEv nowT sid json, st => handle_drawing nowT sid json st

/-- The state after one event (mutations made before an unhandled
exception persist, as the Python globals do). -/
def step (e : Event) (st : State) : State := (runEvent e st).state

/-- States reachable from the empty registry and presence tables over a
settings store `db0` (the store itself is mutated only by admin
commands). -/
inductive Reachable (db0 : List Row) : State → Prop where
  | init : Reachable db0 ⟨[], [], db0⟩
  | step : ∀ e st, Reachable db0 st → Reachable db0 (step e st)

/-! ## Specification-side definitions and concrete fixtures -/

/-- Specification-side viewer count (spec §4.4 `liveCount`, §8): the
number of distinct connection ids holding a PresenceRecord for the room
whose timestamp is at least now − 30 seconds.  Stated independently of
`stream_count` so the two can be compared. -/
def liveCountSpec (nowT : Int) (streamer : String)
    (presence : List (String × PresenceInfo)) : Nat :=
  (((presence.filter
      (fun p => p.2.streamer == streamer && nowT - 30 ≤ p.2.timestamp)).map
    Prod.fst).dedup).length

/-- Settings store with one streamer, lowercase canonical casing. -/
def dbBob : List Row := [⟨"bob", "secretkey", none, none⟩]

/-- Settings store with one streamer whose canonical casing is mixed. -/
def dbMixedBob : List Row := [⟨"Bob", "secretkey", none, none⟩]

/-- A state with one ordinary authenticated session `alice`. -/
def stAlice : State :=
  ⟨[("s1", ⟨"s1", "ip", "bob", "alice", false, false, false, 255⟩)], [], dbBob⟩

/-- A state with a moderator and an ordinary unmuted user in one room. -/
def stModRoom : State :=
  ⟨[("m1", ⟨"m1", "ip", "bob", "mod", false, true, false, 0⟩),
    ("a1", ⟨"a1", "ip", "bob", "Alice", false, false, false, 0⟩)], [], dbBob⟩

/-- The admin login event of the C1 trace. -/
def loginEvC1 : Event := .loginEv 10 "red" "s1" "ip"
  [("username", "bob"), ("streamer", "bob"), ("color", "blue"), ("key", "secretkey")]

/-- The admin rename event of the C1 trace. -/
def renameEvC1 : Event := .messageEv id "red" 20 "s1" [("message", "/name charlie")]

/-- The state reached by an admin login as `bob` followed by
`/name charlie` from the admin session. -/
def stC1 : State := step renameEvC1 (step loginEvC1 ⟨[], [], dbBob⟩)

/-- Two sessions that share a room must differ in case-normalized name. -/
def RoomNameOk (a b : SocketInfo) : Prop :=
  a.streamer = b.streamer → pyLower a.username ≠ pyLower b.username

/-- No two sessions in the registry that share a room share a
case-normalized display name (the spec's per-room uniqueness invariant). -/
def NamesOk (info : List (String × SocketInfo)) : Prop :=
  info.Pairwise (fun a b => RoomNameOk a.2 b.2)

/-- A session update that keeps the display name and the room. -/
def NamePres (f : SocketInfo → SocketInfo) : Prop :=
  ∀ x, (f x).username = x.username ∧ (f x).streamer = x.streamer

/-! ## Claim C2: whitespace-only message crashes the handler -/

/-- Claim C2: the claim states that every message event from an authenticated
session with a non-empty `message` string terminates normally; in fact a
message consisting of a single space passes the pre-strip blank check and
then `message[0]` on the stripped empty string raises an unhandled
IndexError, emitting no reply at all (the code contradicts the spec's
error taxonomy, under which a blank message yields a private warning and
no error is ever fatal). -/
theorem C2_code_bug :
    (handle_message id "red" 30 "s1" [("message", " ")] stAlice).err =
      some PyErr.indexError ∧
    (handle_message id "red" 30 "s1" [("message", " ")] stAlice).emits = [] :=
  ⟨rfl, rfl⟩

/-! ## Claim C5: admin login stores the raw claimed spelling -/

/-- Claim C5: the claim states that a successful admin login stores the
settings store's canonical casing of the streamer name; in fact line 585
of `app.py` stores `json['username']` (the raw claimed spelling `BOB`),
leaving the canonical `Bob` computed on line 573 in a dead local
variable. -/
theorem C5_code_bug :
    (((handle_login 10 "red" "s1" "ip"
        [("username", "BOB"), ("streamer", "bob"), ("color", "blue"),
         ("key", "secretkey")]
        ⟨[], [], dbMixedBob⟩).state.info.lookup "s1").map
      (fun i => (i.admin, i.username))) = some (true, "BOB") ∧
    "BOB" ≠ "Bob" :=
  ⟨rfl, by decide⟩

/-! ## Claim C6: `/color black` is rejected by the falsy-zero check -/

/-- Claim C6: the claim states that `/color black` (which resolves to the valid
24-bit value 0) recolors the session; in fact the handler tests
`if not color:`, which is true for the int 0, so `black` takes the
failure branch: the session is unchanged and only the private
invalid-color guidance is emitted. -/
theorem C6_code_bug :
    get_color "red" "black" = .ok (some 0) ∧
    (handle_message id "red" 20 "s1" [("message", "/color black")] stAlice).state.info =
      stAlice.info ∧
    (handle_message id "red" 20 "s1" [("message", "/color black")] stAlice).emits =
      [⟨"server", msgVal ("Invalid color black specified, try a color name, " ++
        "an HTML color like #ff00ff or \"random\" for a random color."), "s1"⟩] :=
  ⟨rfl, rfl, rfl⟩

/-! ## Claim C7: color resolution and the missing-`#` hex form -/

/-- Claim C7: the claim states that `abcdef` (a hex triplet without a leading
`#`) resolves to a valid value; in fact `webcolors.normalize_hex`
requires the leading `#`, so `get_color` rejects the input. -/
theorem C7_counterexample : get_color "red" "abcdef" = .ok none := rfl

set_option maxHeartbeats 1600000 in
/-- Claim C7 amended: color resolution accepts named colors (`red` gives
0xFF0000) and hex triplets with a leading `#` only, expanding 3-digit
forms (`#abc` gives 0xAABBCC); a 6-digit triplet without `#` (`abcdef`)
and an unknown name (`not-a-color`) are both rejected, for any draw the
`random` branch might take. -/
theorem C7_amended_thm (rc : String) :
    get_color rc "red" = .ok (some 0xFF0000) ∧
    get_color rc "#abc" = .ok (some 0xAABBCC) ∧
    get_color rc "abcdef" = .ok none ∧
    get_color rc "not-a-color" = .ok none :=
  ⟨rfl, rfl, rfl, rfl⟩

/-- Claim C7 witness: the amended theorem applied at a concrete random draw. -/
theorem C7_witness :
    get_color "x" "red" = .ok (some 0xFF0000) ∧
    get_color "x" "#abc" = .ok (some 0xAABBCC) ∧
    get_color "x" "abcdef" = .ok none ∧
    get_color "x" "not-a-color" = .ok none :=
  C7_amended_thm "x"

/-! ## Association-list lemmas -/

theorem lookup_dictSet (k : String) (v : β) (l : List (String × β)) :
    (dictSet k v l).lookup k = some v := by
  induction l with
  | nil => simp [dictSet, List.lookup]
  | cons hd tl ih =>
    obtain ⟨k', v'⟩ := hd
    simp only [dictSet]
    by_cases h : k' = k
    · subst h; simp [List.lookup]
    · have h1 : (k' == k) = false := beq_eq_false_iff_ne.mpr h
      have h2 : (k == k') = false := beq_eq_false_iff_ne.mpr (Ne.symm h)
      simp [h1, List.lookup, h2, ih]

theorem dictSet_of_lookup_none {l : List (String × β)} {k : String} (v : β)
    (h : l.lookup k = none) : dictSet k v l = l ++ [(k, v)] := by
  induction l with
  | nil => simp [dictSet]
  | cons hd tl ih =>
    obtain ⟨k', v'⟩ := hd
    by_cases hk : k = k'
    · subst hk; simp [List.lookup] at h
    · have h1 : (k == k') = false := beq_eq_false_iff_ne.mpr hk
      have h2 : (k' == k) = false := beq_eq_false_iff_ne.mpr (Ne.symm hk)
      simp only [List.lookup, h1] at h
      simp [dictSet, h2, ih h]

theorem dictDel_sublist (k : String) (l : List (String × β)) :
    (dictDel k l).Sublist l := by
  induction l with
  | nil => simp [dictDel]
  | cons hd tl ih =>
    obtain ⟨k', v'⟩ := hd
    by_cases h : k' = k
    · have h1 : (k' == k) = true := beq_iff_eq.mpr h
      simp only [dictDel, h1, if_true]
      exact List.sublist_cons_self (k', v') tl
    · have h1 : (k' == k) = false := beq_eq_false_iff_ne.mpr h
      simpa [dictDel, h1] using ih.cons₂ (k', v')

/-! ## The room-unique-names invariant (claim C3) -/

theorem mem_updFirst {p : SocketInfo → Bool} {f : SocketInfo → SocketInfo}
    {l : List (String × SocketInfo)} {x : String × SocketInfo}
    (hx : x ∈ updFirst p f l) : x ∈ l ∨ ∃ y, y ∈ l ∧ x = (y.1, f y.2) := by
  induction l with
  | nil => simp [updFirst] at hx
  | cons hd tl ih =>
    obtain ⟨k, v⟩ := hd
    simp only [updFirst] at hx
    by_cases h : p v
    · simp only [h, if_true, List.mem_cons] at hx
      rcases hx with h1 | h1
      · exact Or.inr ⟨(k, v), by simp, by simp [h1]⟩
      · exact Or.inl (List.mem_cons_of_mem _ h1)
    · simp only [h, if_false, Bool.false_eq_true, List.mem_cons] at hx
      rcases hx with h1 | h1
      · exact Or.inl (by simp [h1])
      · rcases ih h1 with h2 | ⟨y, hy, he⟩
        · exact Or.inl (List.mem_cons_of_mem _ h2)
        · exact Or.inr ⟨y, List.mem_cons_of_mem _ hy, he⟩

theorem mem_updKey_of_lookup {k : String} {f : SocketInfo → SocketInfo}
    {l : List (String × SocketInfo)} {me : SocketInfo}
    (hlk : l.lookup k = some me) :
    ∀ x ∈ updKey k f l, x ∈ l ∨ x = (k, f me) := by
  induction l with
  | nil => simp [List.lookup] at hlk
  | cons hd tl ih =>
    obtain ⟨k', v⟩ := hd
    intro x hx
    by_cases h : k' = k
    · subst h
      have hme : v = me := by simpa [List.lookup] using hlk
      subst hme
      simp only [updKey, beq_self_eq_true, if_true, List.mem_cons] at hx
      rcases hx with h1 | h1
      · exact Or.inr (by simp [h1])
      · exact Or.inl (List.mem_cons_of_mem _ h1)
    · have h1 : (k' == k) = false := beq_eq_false_iff_ne.mpr h
      have h2 : (k == k') = false := beq_eq_false_iff_ne.mpr (Ne.symm h)
      have hlk' : tl.lookup k = some me := by simpa [List.lookup, h2] using hlk
      simp only [updKey, h1, Bool.false_eq_true, if_false, List.mem_cons] at hx
      rcases hx with hx | hx
      · exact Or.inl (by simp [hx])
      · rcases ih hlk' x hx with h3 | h3
        · exact Or.inl (List.mem_cons_of_mem _ h3)
        · exact Or.inr h3

theorem roomNameOk_namePres_left {f : SocketInfo → SocketInfo} (hf : NamePres f)
    {a b : SocketInfo} (h : RoomNameOk a b) : RoomNameOk (f a) b := by
  unfold RoomNameOk at *
  rw [(hf a).1, (hf a).2]
  exact h

theorem roomNameOk_namePres_right {f : SocketInfo → SocketInfo} (hf : NamePres f)
    {a b : SocketInfo} (h : RoomNameOk a b) : RoomNameOk a (f b) := by
  unfold RoomNameOk at *
  rw [(hf b).1, (hf b).2]
  exact h

theorem namesOk_updFirst {p : SocketInfo → Bool} {f : SocketInfo → SocketInfo}
    (hf : NamePres f) {l : List (String × SocketInfo)} (h : NamesOk l) :
    NamesOk (updFirst p f l) := by
  induction l with
  | nil => simp [updFirst, NamesOk]
  | cons hd tl ih =>
    obtain ⟨k, v⟩ := hd
    rw [NamesOk, List.pairwise_cons] at h
    obtain ⟨h1, h2⟩ := h
    simp only [updFirst]
    by_cases hp : p v
    · simp only [hp, if_true]
      rw [NamesOk, List.pairwise_cons]
      exact ⟨fun b hb => roomNameOk_namePres_left hf (h1 b hb), h2⟩
    · simp only [hp, Bool.false_eq_true, if_false]
      rw [NamesOk, List.pairwise_cons]
      refine ⟨?_, ih h2⟩
      intro b hb
      rcases mem_updFirst hb with hb' | ⟨y, hy, he⟩
      · exact h1 b hb'
      · subst he
        exact roomNameOk_namePres_right hf (h1 y hy)

theorem mem_of_lookup {k : String} {l : List (String × β)} {v : β}
    (h : l.lookup k = some v) : (k, v) ∈ l := by
  induction l with
  | nil => simp [List.lookup] at h
  | cons hd tl ih =>
    obtain ⟨k', v'⟩ := hd
    by_cases hk : k = k'
    · subst hk
      have hv : v' = v := by simpa [List.lookup] using h
      simp [hv]
    · have h1 : (k == k') = false := beq_eq_false_iff_ne.mpr hk
      have h' : tl.lookup k = some v := by simpa [List.lookup, h1] using h
      exact List.mem_cons_of_mem _ (ih h')

theorem updKey_of_lookup_none {k : String} {f : SocketInfo → SocketInfo}
    {l : List (String × SocketInfo)} (h : l.lookup k = none) : updKey k f l = l := by
  induction l with
  | nil => simp [updKey]
  | cons hd tl ih =>
    obtain ⟨k', v⟩ := hd
    by_cases hk : k = k'
    · subst hk; simp [List.lookup] at h
    · have h1 : (k == k') = false := beq_eq_false_iff_ne.mpr hk
      have h2 : (k' == k) = false := beq_eq_false_iff_ne.mpr (Ne.symm hk)
      have h' : tl.lookup k = none := by simpa [List.lookup, h1] using h
      simp [updKey, h2, ih h']

theorem namesOk_updKey {k : String} {f : SocketInfo → SocketInfo}
    (hf : NamePres f) {l : List (String × SocketInfo)} (h : NamesOk l) :
    NamesOk (updKey k f l) := by
  induction l with
  | nil => simp [updKey, NamesOk]
  | cons hd tl ih =>
    obtain ⟨k', v⟩ := hd
    rw [NamesOk, List.pairwise_cons] at h
    obtain ⟨h1, h2⟩ := h
    simp only [updKey]
    by_cases hp : k' = k
    · have hb : (k' == k) = true := beq_iff_eq.mpr hp
      simp only [hb, if_true]
      rw [NamesOk, List.pairwise_cons]
      exact ⟨fun b hb => roomNameOk_namePres_left hf (h1 b hb), h2⟩
    · have hb : (k' == k) = false := beq_eq_false_iff_ne.mpr hp
      simp only [hb, Bool.false_eq_true, if_false]
      rw [NamesOk, List.pairwise_cons]
      refine ⟨?_, ih h2⟩
      intro b hbm
      by_cases hlk : tl.lookup k = none
      · rw [updKey_of_lookup_none hlk] at hbm
        exact h1 b hbm
      · obtain ⟨me, hme⟩ := Option.ne_none_iff_exists'.mp hlk
        rcases mem_updKey_of_lookup hme b hbm with hb' | he
        · exact h1 b hb'
        · subst he
          exact roomNameOk_namePres_right hf (h1 _ (mem_of_lookup hme))

theorem namesOk_dictDel {k : String} {l : List (String × SocketInfo)}
    (h : NamesOk l) : NamesOk (dictDel k l) :=
  (h.sublist (dictDel_sublist k l))

theorem namesOk_append_single {l : List (String × SocketInfo)} {k : String} {v : SocketInfo}
    (h : NamesOk l)
    (hguard : ∀ w ∈ l.map Prod.snd, w.streamer = v.streamer →
      pyLower w.username ≠ pyLower v.username) :
    NamesOk (l ++ [(k, v)]) := by
  rw [NamesOk, List.pairwise_append]
  refine ⟨h, by simp [NamesOk], ?_⟩
  intro a ha b hb
  simp only [List.mem_singleton] at hb
  subst hb
  intro hs
  exact hguard a.2 (List.mem_map_of_mem _ ha) hs

theorem namesOk_rename {l : List (String × SocketInfo)} {k name : String} {me : SocketInfo}
    (hlk : l.lookup k = some me)
    (hguard : ∀ v ∈ l.map Prod.snd, v.streamer = me.streamer →
      pyLower v.username ≠ pyLower name)
    (h : NamesOk l) :
    NamesOk (updKey k (fun x => { x with username := name }) l) := by
  induction l with
  | nil => simp [updKey, NamesOk]
  | cons hd tl ih =>
    obtain ⟨k', v⟩ := hd
    rw [NamesOk, List.pairwise_cons] at h
    obtain ⟨h1, h2⟩ := h
    simp only [updKey]
    by_cases hk : k' = k
    · subst hk
      have hme : v = me := by simpa [List.lookup] using hlk
      subst hme
      simp only [beq_self_eq_true, if_true]
      rw [NamesOk, List.pairwise_cons]
      refine ⟨?_, h2⟩
      intro b hb
      show v.streamer = b.2.streamer → pyLower name ≠ pyLower b.2.username
      intro hs
      have hmem : b.2 ∈ ((k', v) :: tl).map Prod.snd :=
        List.mem_map_of_mem _ (List.mem_cons_of_mem _ hb)
      exact Ne.symm (hguard b.2 hmem hs.symm)
    · have hb1 : (k' == k) = false := beq_eq_false_iff_ne.mpr hk
      have hb2 : (k == k') = false := beq_eq_false_iff_ne.mpr (Ne.symm hk)
      have hlk' : tl.lookup k = some me := by simpa [List.lookup, hb2] using hlk
      simp only [hb1, Bool.false_eq_true, if_false]
      rw [NamesOk, List.pairwise_cons]
      have hguard' : ∀ w ∈ tl.map Prod.snd, w.streamer = me.streamer →
          pyLower w.username ≠ pyLower name := by
        intro w hw
        rcases List.mem_map.mp hw with ⟨y, hy, he⟩
        exact hguard w (he ▸ List.mem_map_of_mem _ (List.mem_cons_of_mem _ hy))
      refine ⟨?_, ih hlk' hguard' h2⟩
      intro b hbm
      rcases mem_updKey_of_lookup hlk' b hbm with hb' | he
      · exact h1 b hb'
      · subst he
        show v.streamer = me.streamer → pyLower v.username ≠ pyLower name
        exact hguard v (List.mem_map_of_mem _ (List.mem_cons_self _ _))

theorem users_in_room_guard {info : List (String × SocketInfo)} {room name : String}
    (h : (users_in_room info room).any
      (fun u => pyLower u.username == pyLower name) = false) :
    ∀ v ∈ info.map Prod.snd, v.streamer = room → pyLower v.username ≠ pyLower name := by
  intro v hv hs heq
  have hmem : (⟨v.username, get_type v, htmlcolor v.color⟩ : UserEntry) ∈
      users_in_room info room := by
    unfold users_in_room
    apply List.mem_map_of_mem
    rw [List.mem_filter]
    exact ⟨hv, by simp [hs]⟩
  have htrue : (users_in_room info room).any
      (fun u => pyLower u.username == pyLower name) = true :=
    List.any_eq_true.mpr ⟨_, hmem, by simpa using heq⟩
  simp [h] at htrue

theorem login_scan_guard {info : List (String × SocketInfo)} {streamer uname : String}
    (h : (info.map Prod.snd).any
      (fun ex => ex.streamer == streamer && pyLower ex.username == pyLower uname) = false) :
    ∀ w ∈ info.map Prod.snd, w.streamer = streamer → pyLower w.username ≠ pyLower uname := by
  intro w hw hs heq
  have htrue : (info.map Prod.snd).any
      (fun ex => ex.streamer == streamer && pyLower ex.username == pyLower uname) = true :=
    List.any_eq_true.mpr ⟨w, hw, by simp [hs, heq]⟩
  simp [h] at htrue

theorem namesOk_login_finish {sid ip streamer uname : String} {admin : Bool} {color : Nat}
    {st : State} (hlk : st.info.lookup sid = none) (h : NamesOk st.info) :
    NamesOk (login_finish sid ip streamer uname admin color st).state.info := by
  unfold login_finish
  by_cases hscan : (st.info.map Prod.snd).any
      (fun ex => ex.streamer == streamer && pyLower ex.username == pyLower uname) = true
  · simp only [hscan, if_true]
    exact h
  · simp only [hscan, if_false]
    show NamesOk (dictSet sid ⟨sid, ip, streamer, uname, admin, false, false, color⟩ st.info)
    rw [dictSet_of_lookup_none _ hlk]
    refine namesOk_append_single h ?_
    intro w hw hs
    exact login_scan_guard (Bool.eq_false_iff.mpr hscan) w hw hs

set_option maxHeartbeats 1000000 in
theorem namesOk_login {nowT : Int} {rc sid ip : String} {json : List (String × String)}
    {st : State} (h : NamesOk st.info) :
    NamesOk (handle_login nowT rc sid ip json st).state.info := by
  unfold handle_login
  split
  · exact h
  · next hsid =>
    have hlk : st.info.lookup sid = none := Option.not_isSome_iff_eq_none.mp hsid
    simp only []
    repeat' split
    all_goals first
      | exact h
      | exact namesOk_login_finish hlk h

theorem namesOk_cmd_say {em : String → String} {sid : String} {me : SocketInfo}
    {message : String} {st : State} (h : NamesOk st.info) :
    NamesOk (cmd_say em sid me message st).state.info := by
  unfold cmd_say; split <;> exact h

theorem namesOk_cmd_action {em : String → String} {sid : String} {me : SocketInfo}
    {message : String} {st : State} (h : NamesOk st.info) :
    NamesOk (cmd_action em sid me message st).state.info := by
  unfold cmd_action; split <;> exact h

theorem namesOk_cmd_color {rc sid : String} {me : SocketInfo}
    {message : String} {st : State} (h : NamesOk st.info) :
    NamesOk (cmd_color rc sid me message st).state.info := by
  unfold cmd_color
  repeat' split
  all_goals first
    | exact h
    | (apply namesOk_updKey <;> first | exact fun x => ⟨rfl, rfl⟩ | exact h)

theorem namesOk_cmd_name {sid : String} {me : SocketInfo}
    {message : String} {st : State}
    (hlk : st.info.lookup sid = some me) (h : NamesOk st.info) :
    NamesOk (cmd_name sid me message st).state.info := by
  unfold cmd_name
  repeat' split
  all_goals try exact h
  next hguard _ =>
    exact namesOk_rename hlk
      (users_in_room_guard (Bool.eq_false_iff.mpr hguard)) h

theorem namesOk_cmd_help {sid : String} {me : SocketInfo} {st : State}
    (h : NamesOk st.info) : NamesOk (cmd_help sid me st).state.info := h

theorem namesOk_cmd_users {sid : String} {me : SocketInfo} {st : State}
    (h : NamesOk st.info) : NamesOk (cmd_users sid me st).state.info := h

theorem namesOk_cmd_settings {sid : String} {me : SocketInfo} {command : String} {st : State}
    (h : NamesOk st.info) : NamesOk (cmd_settings sid me command st).state.info := by
  unfold cmd_settings unrecognizedCmd
  repeat' split
  all_goals exact h

theorem namesOk_cmd_mute {sid : String} {me : SocketInfo} {command message : String}
    {st : State} (h : NamesOk st.info) :
    NamesOk (cmd_mute sid me command message st).state.info := by
  unfold cmd_mute unrecognizedCmd
  simp only []
  repeat' split
  all_goals first
    | exact h
    | (apply namesOk_updFirst <;> first | exact fun x => ⟨rfl, rfl⟩ | exact h)

theorem namesOk_cmd_unmute {sid : String} {me : SocketInfo} {command message : String}
    {st : State} (h : NamesOk st.info) :
    NamesOk (cmd_unmute sid me command message st).state.info := by
  unfold cmd_unmute unrecognizedCmd
  simp only []
  repeat' split
  all_goals first
    | exact h
    | (apply namesOk_updFirst <;> first | exact fun x => ⟨rfl, rfl⟩ | exact h)

theorem namesOk_cmd_mod {sid : String} {me : SocketInfo} {command message : String}
    {st : State} (h : NamesOk st.info) :
    NamesOk (cmd_mod sid me command message st).state.info := by
  unfold cmd_mod unrecognizedCmd
  simp only []
  repeat' split
  all_goals first
    | exact h
    | (apply namesOk_updFirst <;> first | exact fun x => ⟨rfl, rfl⟩ | exact h)

theorem namesOk_cmd_demod {sid : String} {me : SocketInfo} {command message : String}
    {st : State} (h : NamesOk st.info) :
    NamesOk (cmd_demod sid me command message st).state.info := by
  unfold cmd_demod unrecognizedCmd
  simp only []
  repeat' split
  all_goals first
    | exact h
    | (apply namesOk_updFirst <;> first | exact fun x => ⟨rfl, rfl⟩ | exact h)

theorem namesOk_cmd_desc {em : String → String} {sid : String} {me : SocketInfo}
    {command message : String} {st : State} (h : NamesOk st.info) :
    NamesOk (cmd_desc em sid me command message st).state.info := by
  unfold cmd_desc unrecognizedCmd
  repeat' split
  all_goals exact h

theorem namesOk_cmd_password {sid : String} {me : SocketInfo} {command message : String}
    {st : State} (h : NamesOk st.info) :
    NamesOk (cmd_password sid me command message st).state.info := by
  unfold cmd_password unrecognizedCmd
  repeat' split
  all_goals exact h

theorem namesOk_dispatch {em : String → String} {rc sid : String} {me : SocketInfo}
    {cmd arg : String} {st : State}
    (hlk : st.info.lookup sid = some me)
    (h : NamesOk st.info) :
    NamesOk (dispatch_command em rc sid me cmd arg st).state.info := by
  unfold dispatch_command
  by_cases hc0 : (["/say"].contains cmd) = true
  · rw [if_pos hc0]
    exact namesOk_cmd_say h
  · rw [if_neg hc0]
    by_cases hc1 : (["/me", "/action", "/describe"].contains cmd) = true
    · rw [if_pos hc1]
      exact namesOk_cmd_action h
    · rw [if_neg hc1]
      by_cases hc2 : (["/color", "/setcolor"].contains cmd) = true
      · rw [if_pos hc2]
        exact namesOk_cmd_color h
      · rw [if_neg hc2]
        by_cases hc3 : (["/name", "/nick"].contains cmd) = true
        · rw [if_pos hc3]
          exact namesOk_cmd_name hlk h
        · rw [if_neg hc3]
          by_cases hc4 : (["/help"].contains cmd) = true
          · rw [if_pos hc4]
            exact namesOk_cmd_help h
          · rw [if_neg hc4]
            by_cases hc5 : (["/users"].contains cmd) = true
            · rw [if_pos hc5]
              exact namesOk_cmd_users h
            · rw [if_neg hc5]
              by_cases hc6 : (["/settings"].contains cmd) = true
              · rw [if_pos hc6]
                exact namesOk_cmd_settings h
              · rw [if_neg hc6]
                by_cases hc7 : (["/mute", "/quiet"].contains cmd) = true
                · rw [if_pos hc7]
                  exact namesOk_cmd_mute h
                · rw [if_neg hc7]
                  by_cases hc8 : (["/unmute", "/unquiet"].contains cmd) = true
                  · rw [if_pos hc8]
                    exact namesOk_cmd_unmute h
                  · rw [if_neg hc8]
                    by_cases hc9 : (["/mod"].contains cmd) = true
                    · rw [if_pos hc9]
                      exact namesOk_cmd_mod h
                    · rw [if_neg hc9]
                      by_cases hc10 : (["/demod", "/unmod"].contains cmd) = true
                      · rw [if_pos hc10]
                        exact namesOk_cmd_demod h
                      · rw [if_neg hc10]
                        by_cases hc11 : (["/desc", "/description"].contains cmd) = true
                        · rw [if_pos hc11]
                          exact namesOk_cmd_desc h
                        · rw [if_neg hc11]
                          by_cases hc12 : (["/password"].contains cmd) = true
                          · rw [if_pos hc12]
                            exact namesOk_cmd_password h
                          · rw [if_neg hc12]
                            exact h

theorem namesOk_message {em : String → String} {rc : String} {nowT : Int} {sid : String}
    {json : List (String × String)} {st : State} (h : NamesOk st.info) :
    NamesOk (handle_message em rc nowT sid json st).state.info := by
  unfold handle_message
  simp only []
  repeat' split
  all_goals try exact h
  all_goals (refine namesOk_dispatch ?_ h; assumption)

theorem namesOk_connect {sid : String} {st : State} (h : NamesOk st.info) :
    NamesOk (handle_connect sid st).state.info :=
  namesOk_dictDel h

theorem namesOk_disconnect {sid : String} {st : State} (h : NamesOk st.info) :
    NamesOk (handle_disconnect sid st).state.info := by
  unfold handle_disconnect
  simp only []
  repeat' split
  all_goals first
    | exact namesOk_dictDel h
    | exact h

theorem namesOk_presence {nowT : Int} {sid : String} {json : List (String × String)}
    {st : State} (h : NamesOk st.info) :
    NamesOk (handle_presence nowT sid json st).state.info := by
  unfold handle_presence
  repeat' split
  all_goals exact h

theorem namesOk_drawing {nowT : Int} {sid : String} {json : List (String × String)}
    {st : State} (h : NamesOk st.info) :
    NamesOk (handle_drawing nowT sid json st).state.info := by
  unfold handle_drawing
  simp only []
  repeat' split
  all_goals exact h

theorem namesOk_return_color {sid : String} {st : State} (h : NamesOk st.info) :
    NamesOk (return_color sid st).state.info := by
  unfold return_color
  repeat' split
  all_goals exact h

set_option maxHeartbeats 2000000 in
/-- Claim C3: in every reachable state, no two live sessions whose `streamer`
field names the same room have display names that are equal after case
normalization; every operation, including login's insert and the rename
command, preserves this. -/
theorem C3_unique_names (db0 : List Row) (st : State) (h : Reachable db0 st) :
    NamesOk st.info := by
  induction h with
  | init => exact List.Pairwise.nil
  | step e st' hr ih =>
    cases e with
    | connectEv sid => exact namesOk_connect ih
    | disconnectEv sid => exact namesOk_disconnect ih
    | presenceEv nowT sid json => exact namesOk_presence ih
    | loginEv nowT rc sid ip json => exact namesOk_login ih
    | messageEv em rc nowT sid json => exact namesOk_message ih
    | getColorEv sid => exact namesOk_return_color ih
    | drawingEv nowT sid json => exact namesOk_drawing ih

/-! ## Claim C1: the admin name/room relationship -/

theorem login_finish_lookup {sid ip streamer uname : String} {admin : Bool} {color : Nat}
    {st : State} {i : SocketInfo}
    (hres : (login_finish sid ip streamer uname admin color st).state.info.lookup sid =
      some i)
    (hnew : st.info.lookup sid = none) :
    i = ⟨sid, ip, streamer, uname, admin, false, false, color⟩ := by
  unfold login_finish at hres
  revert hres
  split
  · intro hres
    rw [hnew] at hres
    cases hres
  · intro hres
    simp only [] at hres
    rw [lookup_dictSet] at hres
    exact (Option.some.inj hres).symm

set_option maxHeartbeats 1000000 in
/-- Claim C1 amended (general part): whenever a login run creates a session at
a previously-unregistered connection id that has the admin flag set, its
display name equals the room name after case normalization (the stored
room name is already lowercased, while the stored display name is the
caller's raw claimed spelling). -/
theorem C1_amended_thm {nowT : Int} {rc sid ip : String} {json : List (String × String)}
    {st : State} {i : SocketInfo}
    (hnew : st.info.lookup sid = none)
    (hres : (handle_login nowT rc sid ip json st).state.info.lookup sid = some i)
    (hadm : i.admin = true) :
    pyLower i.username = i.streamer := by
  unfold handle_login at hres
  rw [if_neg (by simp [hnew])] at hres
  revert hres
  simp only []
  repeat' split
  all_goals intro hres
  all_goals try (rw [hnew] at hres; cases hres)
  · have hi := login_finish_lookup hres hnew
    subst hi
    exact beq_iff_eq.mp (by assumption)
  · have hi := login_finish_lookup hres hnew
    rw [hi] at hadm
    simp at hadm

/-! ## Claim C4: key-required login -/

set_option maxHeartbeats 1000000 in
/-- Claim C4 amended: a no-key login claiming the streamer name of an existing
room emits exactly the key-required signal (with the canonical username
from the settings store), creates no session and leaves the settings
store alone, but does refresh the caller's presence record. -/
theorem C4_amended_thm {nowT : Int} {rc sid ip uname sraw colorStr : String}
    {json : List (String × String)} {st : State} {row : Row} {copt : Option Nat}
    (h0 : st.info.lookup sid = none)
    (h1 : json.lookup "username" = some uname)
    (h2 : json.lookup "streamer" = some sraw)
    (h3 : (uname.length == 0) = false)
    (h4 : ¬ uname.length ≥ 30)
    (h5 : (users_in_room st.info (pyLower sraw)).any
      (fun u => pyLower u.username == pyLower uname) = false)
    (h6 : json.lookup "color" = some colorStr)
    (h7 : get_color rc (pyLower (pyStrip colorStr)) = .ok copt)
    (h8 : json.lookup "key" = none)
    (h9 : st.db.filter (fun r => sqlEq r.username (pyLower sraw)) = [row])
    (h10 : (pyLower uname == pyLower sraw) = true) :
    handle_login nowT rc sid ip json st =
      ⟨{ st with presence := dictSet sid ⟨sid, pyLower sraw, nowT⟩ st.presence },
       [⟨"login key required", Val.obj [("username", Val.str row.username)], sid⟩], none⟩ := by
  unfold handle_login
  rw [h1, h2]
  simp only [h0, Option.isSome_none, Bool.false_eq_true, if_false, h3, h5, h6, h7, h8]
  rw [if_neg h4]
  simp only [h9, h10, if_true]

/-! ## Claim C10: missing color field -/

set_option maxHeartbeats 1000000 in
/-- Claim C10: a login payload with valid username and streamer entries that
passes the early checks but carries no color entry raises an unhandled
KeyError and emits nothing, while a missing username or streamer entry
instead produces a private error reply. -/
theorem C10_missing_color_keyerror (nowT : Int) (rc sid ip : String) {uname sraw : String}
    {json : List (String × String)} {st : State}
    (h0 : st.info.lookup sid = none)
    (h1 : json.lookup "username" = some uname)
    (h2 : json.lookup "streamer" = some sraw)
    (h3 : (uname.length == 0) = false)
    (h4 : ¬ uname.length ≥ 30)
    (h5 : (users_in_room st.info (pyLower sraw)).any
      (fun u => pyLower u.username == pyLower uname) = false)
    (h6 : json.lookup "color" = none) :
    handle_login nowT rc sid ip json st = ⟨st, [], some (PyErr.keyError "color")⟩ ∧
    (∀ (json2 : List (String × String)) (st2 : State), json2.lookup "username" = none →
      st2.info.lookup sid = none →
      handle_login nowT rc sid ip json2 st2 =
        ⟨st2, [⟨"error", msgVal "Username mssing from JSON?", sid⟩], none⟩) ∧
    (∀ (json3 : List (String × String)) (st3 : State) (u3 : String),
      json3.lookup "username" = some u3 → json3.lookup "streamer" = none →
      st3.info.lookup sid = none →
      handle_login nowT rc sid ip json3 st3 =
        ⟨st3, [⟨"error", msgVal "Streamer mssing from JSON?", sid⟩], none⟩) := by
  refine ⟨?_, ?_, ?_⟩
  · unfold handle_login
    rw [h1, h2]
    simp only [h0, Option.isSome_none, Bool.false_eq_true, if_false, h3, h5, h6]
    rw [if_neg h4]
  · intro json2 st2 hu hsid
    unfold handle_login
    rw [hu]
    simp only [hsid, Option.isSome_none, Bool.false_eq_true, if_false]
  · intro json3 st3 u3 hu hs hsid
    unfold handle_login
    rw [hu, hs]
    simp only [hsid, Option.isSome_none, Bool.false_eq_true, if_false]

/-! ## Claim C8: viewer count -/

/-- Claim C8: the implementation's viewer count equals the number of distinct
connection ids holding a PresenceRecord for the room whose timestamp is
at least now − 30 (connection ids are dict keys, hence distinct); a
record stamped at time 0 is counted when observed at time 29 and not
counted at time 31, independently of any session state. -/
theorem C8_live_count (nowT : Int) (streamer : String)
    (presence : List (String × PresenceInfo))
    (hnd : (presence.map Prod.fst).Nodup) :
    stream_count nowT streamer presence = liveCountSpec nowT streamer presence ∧
    stream_count 29 streamer [("x", ⟨"x", streamer, 0⟩)] = 1 ∧
    stream_count 31 streamer [("x", ⟨"x", streamer, 0⟩)] = 0 := by
  refine ⟨?_, ?_, ?_⟩
  · unfold stream_count liveCountSpec
    have hsub : ((presence.filter
        (fun p => p.2.streamer == streamer && nowT - 30 ≤ p.2.timestamp)).map Prod.fst).Nodup :=
      hnd.sublist ((List.filter_sublist presence).map Prod.fst)
    rw [hsub.dedup]
    simp only [List.filter_map, List.length_map]
    rfl
  · simp [stream_count]
  · simp [stream_count]

/-! ## Claim C9: mute and its idempotent no-op branch -/

theorem updFirst_eq_self {p : SocketInfo → Bool} {f : SocketInfo → SocketInfo}
    {l : List (String × SocketInfo)} {v : SocketInfo}
    (h : (l.map Prod.snd).find? p = some v) (hf : f v = v) : updFirst p f l = l := by
  induction l with
  | nil => simp [updFirst]
  | cons hd tl ih =>
    obtain ⟨k, w⟩ := hd
    simp only [List.map_cons] at h
    by_cases hp : p w = true
    · have hw : v = w := by
        rw [List.find?_cons_of_pos _ hp] at h
        exact (Option.some.inj h).symm
      subst hw
      simp [updFirst, hp, hf]
    · have hp' : p w = false := Bool.eq_false_iff.mpr hp
      have h' : (tl.map Prod.snd).find? p = some v := by
        rwa [List.find?_cons_of_neg _ hp] at h
      simp [updFirst, hp', ih h']

theorem find?_updFirst {p : SocketInfo → Bool} {f : SocketInfo → SocketInfo}
    {l : List (String × SocketInfo)} {v : SocketInfo}
    (h : (l.map Prod.snd).find? p = some v) (hpf : ∀ x, p (f x) = p x) :
    ((updFirst p f l).map Prod.snd).find? p = some (f v) := by
  induction l with
  | nil => simp at h
  | cons hd tl ih =>
    obtain ⟨k, w⟩ := hd
    simp only [List.map_cons] at h
    by_cases hp : p w = true
    · have hw : v = w := by
        rw [List.find?_cons_of_pos _ hp] at h
        exact (Option.some.inj h).symm
      subst hw
      simp only [updFirst, hp, if_true, List.map_cons]
      rw [List.find?_cons_of_pos _ (by rw [hpf]; exact hp)]
    · have hp' : p w = false := Bool.eq_false_iff.mpr hp
      have h' : (tl.map Prod.snd).find? p = some v := by
        rwa [List.find?_cons_of_neg _ hp] at h
      simp only [updFirst, hp', Bool.false_eq_true, if_false, List.map_cons]
      rw [List.find?_cons_of_neg _ hp]
      exact ih h'

set_option maxHeartbeats 1000000 in
theorem cmd_mute_found {sid : String} {me : SocketInfo} {command arg : String}
    {st : State} {tgt : SocketInfo}
    (hpriv : (me.admin || me.moderator) = true)
    (hfind : (st.info.map Prod.snd).find?
      (fun s => pyLower s.username == pyLower (pyStrip arg) && s.streamer == me.streamer) =
      some tgt) :
    cmd_mute sid me command arg st =
      if tgt.muted then
        ⟨{ st with info := updFirst (fun s => pyLower s.username == pyLower (pyStrip arg) && s.streamer == me.streamer) (fun s => { s with muted := true }) st.info },
         [⟨"server", msgVal ("User '" ++ pyLower (pyStrip arg) ++ "' is already muted."), sid⟩],
         none⟩
      else
        ⟨{ st with info := updFirst (fun s => pyLower s.username == pyLower (pyStrip arg) && s.streamer == me.streamer) (fun s => { s with muted := true }) st.info },
         [⟨"server", msgVal ("User '" ++ pyLower (pyStrip arg) ++ "' has been muted."), sid⟩,
          ⟨"server", msgVal "You have been muted.", tgt.sid⟩], none⟩ := by
  unfold cmd_mute
  simp only [hpriv, Bool.not_true, Bool.false_eq_true, if_false]
  try simp only []
  rw [hfind]
  try simp only []
  cases htm : tgt.muted
  · simp only [htm, beq_self_eq_true, if_true, Bool.false_eq_true, if_false]
  · simp only [htm, if_true]
    rw [if_neg (by simp)]

set_option maxHeartbeats 1000000 in
/-- Claim C9: a `/mute` command from a moderator or admin whose target
resolves (case-insensitively, first match in registry order, same room)
sets the target's muted flag and notifies both caller and target when
the target was unmuted; when the target is already muted it changes
nothing and only reports already-muted to the caller; and running the
same command again immediately after always lands in that no-op branch,
leaving the state exactly as after the first call. -/
theorem C9_mute_idempotent {em : String → String} {rc sid arg : String}
    {me tgt : SocketInfo} {st : State}
    (hpriv : (me.admin || me.moderator) = true)
    (hfind : (st.info.map Prod.snd).find?
      (fun s => pyLower s.username == pyLower (pyStrip arg) && s.streamer == me.streamer) =
      some tgt) :
    (tgt.muted = false →
      dispatch_command em rc sid me "/mute" arg st =
        ⟨{ st with info := updFirst (fun s => pyLower s.username == pyLower (pyStrip arg) && s.streamer == me.streamer) (fun s => { s with muted := true }) st.info },
         [⟨"server", msgVal ("User '" ++ pyLower (pyStrip arg) ++ "' has been muted."), sid⟩,
          ⟨"server", msgVal "You have been muted.", tgt.sid⟩], none⟩) ∧
    (tgt.muted = true →
      dispatch_command em rc sid me "/mute" arg st =
        ⟨st, [⟨"server", msgVal ("User '" ++ pyLower (pyStrip arg) ++ "' is already muted."),
          sid⟩], none⟩) ∧
    dispatch_command em rc sid me "/mute" arg
        (dispatch_command em rc sid me "/mute" arg st).state =
      ⟨(dispatch_command em rc sid me "/mute" arg st).state,
       [⟨"server", msgVal ("User '" ++ pyLower (pyStrip arg) ++ "' is already muted."), sid⟩],
       none⟩ := by
  have hd : ∀ st0 : State, dispatch_command em rc sid me "/mute" arg st0 =
      cmd_mute sid me "/mute" arg st0 := fun st0 => rfl
  refine ⟨?_, ?_, ?_⟩
  · intro htm
    rw [hd, cmd_mute_found hpriv hfind, if_neg (by simp [htm])]
  · intro htm
    have hft : ({ tgt with muted := true } : SocketInfo) = tgt := by
      cases tgt
      simp_all
    rw [hd, cmd_mute_found hpriv hfind, if_pos htm, updFirst_eq_self hfind hft]
  · cases htm : tgt.muted
    · have e1 : dispatch_command em rc sid me "/mute" arg st =
          ⟨{ st with info := updFirst (fun s => pyLower s.username == pyLower (pyStrip arg) && s.streamer == me.streamer) (fun s => { s with muted := true }) st.info },
           [⟨"server", msgVal ("User '" ++ pyLower (pyStrip arg) ++ "' has been muted."), sid⟩,
            ⟨"server", msgVal "You have been muted.", tgt.sid⟩], none⟩ := by
        rw [hd st, cmd_mute_found hpriv hfind, if_neg (by simp [htm])]
      have hfind2 : ((({ st with info := updFirst (fun s => pyLower s.username == pyLower (pyStrip arg) && s.streamer == me.streamer) (fun s => { s with muted := true }) st.info } : State)).info.map Prod.snd).find?
          (fun s => pyLower s.username == pyLower (pyStrip arg) && s.streamer == me.streamer) =
          some { tgt with muted := true } :=
        find?_updFirst hfind (fun x => rfl)
      rw [e1]
      show dispatch_command em rc sid me "/mute" arg { st with info := updFirst (fun s => pyLower s.username == pyLower (pyStrip arg) && s.streamer == me.streamer) (fun s => { s with muted := true }) st.info } =
        ⟨{ st with info := updFirst (fun s => pyLower s.username == pyLower (pyStrip arg) && s.streamer == me.streamer) (fun s => { s with muted := true }) st.info },
         [⟨"server", msgVal ("User '" ++ pyLower (pyStrip arg) ++ "' is already muted."), sid⟩],
         none⟩
      rw [hd, cmd_mute_found hpriv hfind2, if_pos rfl, updFirst_eq_self hfind2 rfl]
    · have hft : ({ tgt with muted := true } : SocketInfo) = tgt := by
        cases tgt
        simp_all
      have e1 : dispatch_command em rc sid me "/mute" arg st =
          ⟨st, [⟨"server", msgVal ("User '" ++ pyLower (pyStrip arg) ++ "' is already muted."),
            sid⟩], none⟩ := by
        rw [hd st, cmd_mute_found hpriv hfind, if_pos htm, updFirst_eq_self hfind hft]
      rw [e1]
      show dispatch_command em rc sid me "/mute" arg st =
        ⟨st, [⟨"server", msgVal ("User '" ++ pyLower (pyStrip arg) ++ "' is already muted."),
          sid⟩], none⟩
      exact e1

/-- Claim C1 counterexample: the state reached by logging in as the
admin `bob` of room `bob` and then issuing `/name charlie` is reachable
and contains a session whose admin flag is true but whose display name
differs from its room name even after case normalization — the rename
command does not preserve the claimed invariant. -/
theorem C1_counterexample :
    Reachable dbBob stC1 ∧
    (stC1.info.map Prod.snd).any
      (fun i => i.admin && !(pyLower i.username == pyLower i.streamer)) = true :=
  ⟨Reachable.step renameEvC1 _ (Reachable.step loginEvC1 _ Reachable.init), by decide⟩

/-- Claim C1 witness: the amended theorem applied to a concrete admin
login (claimed spelling `BOB` into room `bob`). -/
theorem C1_witness :
    pyLower (⟨"s1", "ip", "bob", "BOB", true, false, false, 255⟩ : SocketInfo).username =
      (⟨"s1", "ip", "bob", "BOB", true, false, false, 255⟩ : SocketInfo).streamer :=
  C1_amended_thm
    (show (⟨[], [], dbMixedBob⟩ : State).info.lookup "s1" = none from rfl)
    (show (handle_login 10 "red" "s1" "ip"
      [("username", "BOB"), ("streamer", "bob"), ("color", "blue"), ("key", "secretkey")]
      ⟨[], [], dbMixedBob⟩).state.info.lookup "s1" =
      some ⟨"s1", "ip", "bob", "BOB", true, false, false, 255⟩ from rfl)
    rfl

/-- Claim C3 witness: the invariant evaluated at the concrete state
reached by one login. -/
theorem C3_witness : NamesOk (step loginEvC1 ⟨[], [], dbBob⟩).info :=
  C3_unique_names dbBob _ (Reachable.step loginEvC1 _ Reachable.init)

/-- Claim C4 counterexample: a no-key login claiming the room name of
an existing streamer emits only the key-required signal and creates no
session, but the presence store is NOT unchanged — the handler stamps a
fresh PresenceRecord for the caller before checking for the key. -/
theorem C4_counterexample :
    (handle_login 10 "red" "s2" "ip"
      [("username", "BOB"), ("streamer", "Bob"), ("color", "blue")]
      ⟨[], [], dbBob⟩).emits.map (fun e => (e.event, e.room)) =
        [("login key required", "s2")] ∧
    (handle_login 10 "red" "s2" "ip"
      [("username", "BOB"), ("streamer", "Bob"), ("color", "blue")]
      ⟨[], [], dbBob⟩).state.info = [] ∧
    (handle_login 10 "red" "s2" "ip"
      [("username", "BOB"), ("streamer", "Bob"), ("color", "blue")]
      ⟨[], [], dbBob⟩).state.presence ≠ [] ∧
    (handle_login 10 "red" "s2" "ip"
      [("username", "BOB"), ("streamer", "Bob"), ("color", "blue")]
      ⟨[], [], dbBob⟩).state.presence = [("s2", ⟨"s2", "bob", 10⟩)] :=
  ⟨rfl, rfl, by decide, rfl⟩

/-- Claim C4 witness: the amended theorem applied to a concrete no-key
admin-claim login. -/
theorem C4_witness :
    handle_login 10 "red" "s2" "ip"
      [("username", "BOB"), ("streamer", "Bob"), ("color", "blue")] ⟨[], [], dbBob⟩ =
      ⟨⟨[], [("s2", ⟨"s2", "bob", 10⟩)], dbBob⟩,
       [⟨"login key required", Val.obj [("username", Val.str "bob")], "s2"⟩], none⟩ :=
  C4_amended_thm
    (show (⟨[], [], dbBob⟩ : State).info.lookup "s2" = none from rfl)
    (show ([("username", "BOB"), ("streamer", "Bob"), ("color", "blue")] :
      List (String × String)).lookup "username" = some "BOB" from rfl)
    (show ([("username", "BOB"), ("streamer", "Bob"), ("color", "blue")] :
      List (String × String)).lookup "streamer" = some "Bob" from rfl)
    rfl (by decide) rfl
    (show ([("username", "BOB"), ("streamer", "Bob"), ("color", "blue")] :
      List (String × String)).lookup "color" = some "blue" from rfl)
    (show get_color "red" (pyLower (pyStrip "blue")) = .ok (some 255) from rfl)
    rfl
    (show (⟨[], [], dbBob⟩ : State).db.filter
      (fun r => sqlEq r.username (pyLower "Bob")) = [⟨"bob", "secretkey", none, none⟩]
      from rfl)
    rfl

/-- Claim C8 witness: the count equivalence applied at a concrete
one-record presence table. -/
theorem C8_witness :
    stream_count 29 "bob" [("x", ⟨"x", "bob", 0⟩)] =
      liveCountSpec 29 "bob" [("x", ⟨"x", "bob", 0⟩)] ∧
    stream_count 29 "bob" [("x", ⟨"x", "bob", 0⟩)] = 1 ∧
    stream_count 31 "bob" [("x", ⟨"x", "bob", 0⟩)] = 0 :=
  C8_live_count 29 "bob" [("x", ⟨"x", "bob", 0⟩)] (by decide)

/-- Claim C9 witness: the mute theorem applied to a moderator muting
the unmuted `Alice` in a concrete two-user room. -/
theorem C9_witness :
    dispatch_command id "red" "m1" ⟨"m1", "ip", "bob", "mod", false, true, false, 0⟩
        "/mute" "Alice" stModRoom =
      ⟨⟨[("m1", ⟨"m1", "ip", "bob", "mod", false, true, false, 0⟩),
         ("a1", ⟨"a1", "ip", "bob", "Alice", false, false, true, 0⟩)], [], dbBob⟩,
       [⟨"server", msgVal "User 'alice' has been muted.", "m1"⟩,
        ⟨"server", msgVal "You have been muted.", "a1"⟩], none⟩ :=
  (C9_mute_idempotent
    (show ((⟨"m1", "ip", "bob", "mod", false, true, false, 0⟩ : SocketInfo).admin ||
      (⟨"m1", "ip", "bob", "mod", false, true, false, 0⟩ : SocketInfo).moderator) = true from rfl)
    (show (stModRoom.info.map Prod.snd).find?
      (fun s => pyLower s.username == pyLower (pyStrip "Alice") &&
        s.streamer == (⟨"m1", "ip", "bob", "mod", false, true, false, 0⟩ : SocketInfo).streamer) =
      some ⟨"a1", "ip", "bob", "Alice", false, false, false, 0⟩ from rfl)).1 rfl

/-- Claim C10 witness: the KeyError theorem and its two contrast parts
applied at concrete login payloads. -/
theorem C10_witness :
    handle_login 10 "red" "s1" "ip" [("username", "alice"), ("streamer", "bob")]
      ⟨[], [], dbBob⟩ = ⟨⟨[], [], dbBob⟩, [], some (PyErr.keyError "color")⟩ ∧
    handle_login 10 "red" "s1" "ip" [("streamer", "bob")] ⟨[], [], dbBob⟩ =
      ⟨⟨[], [], dbBob⟩, [⟨"error", msgVal "Username mssing from JSON?", "s1"⟩], none⟩ ∧
    handle_login 10 "red" "s1" "ip" [("username", "alice")] ⟨[], [], dbBob⟩ =
      ⟨⟨[], [], dbBob⟩, [⟨"error", msgVal "Streamer mssing from JSON?", "s1"⟩], none⟩ := by
  have h := C10_missing_color_keyerror 10 "red" "s1" "ip"
    (show (⟨[], [], dbBob⟩ : State).info.lookup "s1" = none from rfl)
    (show ([("username", "alice"), ("streamer", "bob")] :
      List (String × String)).lookup "username" = some "alice" from rfl)
    (show ([("username", "alice"), ("streamer", "bob")] :
      List (String × String)).lookup "streamer" = some "bob" from rfl)
    rfl (by decide) rfl rfl
  exact ⟨h.1, h.2.1 [("streamer", "bob")] ⟨[], [], dbBob⟩ rfl rfl,
    h.2.2 [("username", "alice")] ⟨[], [], dbBob⟩ "alice" rfl rfl rfl⟩

end PyStreaming
